import Mathlib

/-!
Shallow embedding of the BillerPRO bill-capture pipeline and local ledger
store, translated from `src/src/app/store.tsx`, `src/src/app/components/UploadBill.tsx`
and the store/upload variants in `src/unnamed/part_000`, `part_001`, `part_003`
and `src/app/components/UploadBill.tsx`.

JavaScript strings are modelled as Lean `String`/`List Char`; JS `number` as `ℚ`;
`undefined`-able fields as `Option`; the regexes used by the masking engine and
the duplicate detector are hand-compiled into character scanners that follow the
exact JS semantics (greedy classes, word boundaries `\b`, the lookbehind /
lookahead sets, global replacement, and — for the UPI rule — JS
`String.replace(string, ...)` first-occurrence replacement).
-/

namespace BillerPRO

/-- Confidence level (`'high' | 'medium' | 'low'` in `store.tsx`). -/
inductive Conf where
  | high
  | medium
  | low
deriving DecidableEq, Repr

/-- `Vendor` record from `store.tsx`. -/
structure Vendor where
  id : String
  name : String
  cutPercent : ℚ
  color : String
  notes : Option String
deriving DecidableEq, Repr

/-- `Bill` record from `store.tsx`. -/
structure Bill where
  id : String
  vendorId : String
  customerName : String
  amount : ℚ
  date : String
  notes : Option String
  confidence : Conf
deriving DecidableEq, Repr

/-- JS `s.startsWith(p)`, on the underlying character lists. -/
def jsStartsWith (s p : String) : Bool :=
  p.data.isPrefixOf s.data

/-- `getBillsForMonth` from `store.tsx`:
`state.bills.filter(b => b.date.startsWith(month))`. -/
def getBillsForMonth (bills : List Bill) (month : String) : List Bill :=
  bills.filter (fun b => jsStartsWith b.date month)

/-- Body of the `reduce` in `getEarningsForMonth` (`store.tsx`): the earnings
contribution of one bill — `vendor ? b.amount * vendor.cutPercent / 100 : 0`
where `vendor = state.vendors.find(v => v.id === b.vendorId)`. -/
def billCut (vendors : List Vendor) (b : Bill) : ℚ :=
  match vendors.find? (fun v => v.id == b.vendorId) with
  | some v => b.amount * v.cutPercent / 100
  | none => 0

/-- `getEarningsForMonth` from `store.tsx` (the same algorithm appears as
`getEarningsForMonthFn` in `src/unnamed/part_001`). -/
def getEarningsForMonth (bills : List Bill) (vendors : List Vendor) (month : String) : ℚ :=
  (getBillsForMonth bills month).foldl (fun sum b => sum + billCut vendors b) 0

/-- The slice of `AppState` that `deleteVendor` reads and writes. -/
structure LedgerState where
  vendors : List Vendor
  bills : List Bill
deriving DecidableEq, Repr

/-- `deleteVendor` from `src/src/app/store.tsx` (lines 182–188): removes the
vendor and ALSO filters out every bill whose `vendorId` references it. -/
def deleteVendorCascade (id : String) (s : LedgerState) : LedgerState :=
  { vendors := s.vendors.filter (fun v => !(v.id == id)),
    bills := s.bills.filter (fun b => !(b.vendorId == id)) }

/-- `deleteVendor` from `src/unnamed/part_000` (lines 217–219) and
`src/unnamed/part_001` (lines 260–268): removes only the vendor; `bills` is
left untouched. -/
def deleteVendorKeepBills (id : String) (s : LedgerState) : LedgerState :=
  { vendors := s.vendors.filter (fun v => !(v.id == id)),
    bills := s.bills }

/-! ### Masking engine (`maskSensitiveData`, `UploadBill.tsx` lines 75–111)

Each of the four JS regexes is compiled by hand into a character scanner with
the engine's exact semantics on these patterns. JS `\w` / `\d` / `[A-Z]` /
`[a-zA-Z]` are ASCII classes. -/

/-- JS regex `\w` (ASCII word character `[A-Za-z0-9_]`). -/
def wordChar (c : Char) : Bool :=
  c.isAlphanum || c == '_'

/-- ASCII `[A-Z]`. -/
def upperAZ (c : Char) : Bool :=
  65 ≤ c.toNat && c.toNat ≤ 90

/-- ASCII `[a-zA-Z]`. -/
def asciiLetter (c : Char) : Bool :=
  upperAZ c || (97 ≤ c.toNat && c.toNat ≤ 122)

/-- ASCII `[A-Z0-9]`. -/
def upperOrDigit (c : Char) : Bool :=
  upperAZ c || c.isDigit

/-- A `\b` word boundary holds before a word character iff the previous
character (`none` at the start of the string) is not a word character. -/
def noWordBefore : Option Char → Bool
  | none => true
  | some c => !wordChar c

/-- Attempt `\b[A-Z]{4}0[A-Z0-9]{6}\b` at the head of `cs` (`prev` is the
character immediately before `cs`). On success returns the last matched
character (needed as the new `prev`) and the remainder after the 11-character
match. -/
def ifscTry (prev : Option Char) (cs : List Char) : Option (Char × List Char) :=
  match cs with
  | a :: b :: c :: d :: z :: r1 :: r2 :: r3 :: r4 :: r5 :: r6 :: rest =>
    if noWordBefore prev && upperAZ a && upperAZ b && upperAZ c && upperAZ d &&
        z == '0' && upperOrDigit r1 && upperOrDigit r2 && upperOrDigit r3 &&
        upperOrDigit r4 && upperOrDigit r5 && upperOrDigit r6 &&
        (match rest with
         | [] => true
         | x :: _ => !wordChar x) then
      some (r6, rest)
    else
      none
  | _ => none

/-- Global replacement pass for the IFSC regex; also reports whether any match
was found (the JS code tests `text.match(ifscRegex)` before replacing). The
fuel bounds the scan position; every step consumes at least one character, so
`length + 1` fuel never runs out. -/
def ifscGo : Nat → Option Char → List Char → List Char × Bool
  | 0, _, cs => (cs, false)
  | _ + 1, _, [] => ([], false)
  | fuel + 1, prev, c :: cs =>
    match ifscTry prev (c :: cs) with
    | some (lastc, rest) =>
      let r := ifscGo fuel (some lastc) rest
      ("[IFSC-MASKED]".data ++ r.1, true)
    | none =>
      let r := ifscGo fuel (some c) cs
      (c :: r.1, r.2)

/-- `text.replace(/\b[A-Z]{4}0[A-Z0-9]{6}\b/g, '[IFSC-MASKED]')` plus the
did-anything-match flag. -/
def maskIFSC (cs : List Char) : List Char × Bool :=
  ifscGo (cs.length + 1) none cs

/-- The lookaround set of the account-number regex: the JS class `[.\\/,₹%]`,
i.e. dot, backslash, slash, comma, rupee sign, percent. -/
def acctExcl (c : Char) : Bool :=
  c == '.' || c == '\\' || c == '/' || c == ',' || c == '₹' || c == '%'

/-- Combined boundary condition of `(?<![.\\/,₹%])\b` (and symmetrically of
`\b(?![.\\/,₹%])`) next to a digit: the adjacent character, when it exists,
must neither be a word character nor in the excluded set. -/
def acctBoundary : Option Char → Bool
  | none => true
  | some c => !wordChar c && !acctExcl c

/-- Global pass for `(?<![.\\/,₹%])\b(\d{9,18})\b(?![.\\/,₹%])`. A maximal
digit run matches iff its length is between 9 and 18 and both boundary
conditions hold (a run longer than 18 can never satisfy the trailing `\b`, and
no match can start inside a run because `\b` fails there), so the scanner
processes whole digit runs. -/
def acctGo : Nat → Option Char → List Char → List Char × Bool
  | 0, _, cs => (cs, false)
  | _ + 1, _, [] => ([], false)
  | fuel + 1, prev, c :: cs =>
    if c.isDigit then
      let run := (c :: cs).takeWhile Char.isDigit
      let rest := (c :: cs).dropWhile Char.isDigit
      let r := acctGo fuel run.getLast? rest
      if acctBoundary prev && decide (9 ≤ run.length) && decide (run.length ≤ 18) &&
          acctBoundary rest.head? then
        ("[ACCT-MASKED]".data ++ r.1, true)
      else
        (run ++ r.1, r.2)
    else
      let r := acctGo fuel (some c) cs
      (c :: r.1, r.2)

/-- `text.replace(acRegex, '[ACCT-MASKED]')` plus the did-anything-match flag. -/
def maskAcct (cs : List Char) : List Char × Bool :=
  acctGo (cs.length + 1) none cs

/-- The local-part class `[\w.+-]` of the UPI regex. -/
def upiLocalChar (c : Char) : Bool :=
  wordChar c || c == '.' || c == '+' || c == '-'

/-- `text.match(/[\w.+-]+@[a-zA-Z]+/g)`: the list of matched substrings, in
order. A match can only start at the head of a maximal local-part run (the
greedy `+` forces the `@` to sit at the end of the run), so the scanner
processes runs wholesale. -/
def upiMatchesGo : Nat → List Char → List (List Char)
  | 0, _ => []
  | _ + 1, [] => []
  | fuel + 1, c :: cs =>
    if upiLocalChar c then
      let run := (c :: cs).takeWhile upiLocalChar
      let rest := (c :: cs).dropWhile upiLocalChar
      match rest with
      | '@' :: rest2 =>
        let dom := rest2.takeWhile asciiLetter
        let rest3 := rest2.dropWhile asciiLetter
        if dom.isEmpty then
          upiMatchesGo fuel rest
        else
          (run ++ '@' :: dom) :: upiMatchesGo fuel rest3
      | _ => upiMatchesGo fuel rest
    else
      upiMatchesGo fuel cs

/-- All matches of the UPI regex in `cs`. -/
def upiMatches (cs : List Char) : List (List Char) :=
  upiMatchesGo (cs.length + 1) cs

/-- JS `text.includes(sub)` (substring containment) on character lists. -/
def hasSub (sub : List Char) : List Char → Bool
  | [] => sub.isEmpty
  | c :: cs => sub.isPrefixOf (c :: cs) || hasSub sub cs

/-- JS `text.includes(sub)` on strings. -/
def strIncludes (s sub : String) : Bool :=
  hasSub sub.data s.data

/-- JS `text.replace(sub, repl)` with a STRING pattern: replaces only the
FIRST occurrence of `sub`. -/
def replaceFirstL (sub repl : List Char) : List Char → List Char
  | [] => []
  | c :: cs =>
    if sub.isPrefixOf (c :: cs) then
      repl ++ (c :: cs).drop sub.length
    else
      c :: replaceFirstL sub repl cs

/-- Class `[A-Za-z\s]` used by the bank-name regex. -/
def bankClassChar (c : Char) : Bool :=
  asciiLetter c || c.isWhitespace

/-- Occurrence of the alternation `(?:Bank|BANK)` at some offset of `body`. -/
def bankOccAux : List Char → Bool
  | [] => false
  | c :: cs =>
    "Bank".data.isPrefixOf (c :: cs) || "BANK".data.isPrefixOf (c :: cs) || bankOccAux cs

/-- Attempt `(Bank\s*Name\s*[:\-]?\s*)([A-Z][A-Za-z\s]+(?:Bank|BANK)[A-Za-z\s]*)`
at the head of `cs`. The pattern is deterministic except for the choice of the
`(?:Bank|BANK)` occurrence, and every choice ends the match at the end of the
maximal `[A-Za-z\s]` run, so success only requires SOME occurrence at offset
≥ 1 after the initial capital (offset ≥ 1 because `[A-Za-z\s]+` needs at least
one character). Returns (group 1, remainder after the whole match). -/
def bankTry (cs : List Char) : Option (List Char × List Char) :=
  match cs with
  | 'B' :: 'a' :: 'n' :: 'k' :: r1 =>
    let s1 := r1.takeWhile Char.isWhitespace
    let r2 := r1.dropWhile Char.isWhitespace
    match r2 with
    | 'N' :: 'a' :: 'm' :: 'e' :: r3 =>
      let s2 := r3.takeWhile Char.isWhitespace
      let r4 := r3.dropWhile Char.isWhitespace
      let sep : List Char × List Char :=
        match r4 with
        | ':' :: t => ([':'], t)
        | '-' :: t => (['-'], t)
        | _ => ([], r4)
      let s3 := sep.2.takeWhile Char.isWhitespace
      let r6 := sep.2.dropWhile Char.isWhitespace
      match r6 with
      | u :: r7 =>
        if upperAZ u then
          let body := r7.takeWhile bankClassChar
          let r8 := r7.dropWhile bankClassChar
          if bankOccAux (body.drop 1) then
            some ("Bank".data ++ s1 ++ "Name".data ++ s2 ++ sep.1 ++ s3, r8)
          else
            none
        else
          none
      | [] => none
    | _ => none
  | _ => none

/-- Global pass replacing the bank-name pattern with `'$1[BANK-MASKED]'`. -/
def bankGo : Nat → List Char → List Char
  | 0, cs => cs
  | _ + 1, [] => []
  | fuel + 1, c :: cs =>
    match bankTry (c :: cs) with
    | some (label, rest) => label ++ "[BANK-MASKED]".data ++ bankGo fuel rest
    | none => c :: bankGo fuel cs

/-- `text.replace(/(Bank\s*Name\s*[:\-]?\s*)([A-Z][A-Za-z\s]+(?:Bank|BANK)[A-Za-z\s]*)/g,
'$1[BANK-MASKED]')`. -/
def maskBank (cs : List Char) : List Char :=
  bankGo (cs.length + 1) cs

/-- Result of `maskSensitiveData` (`MaskResult` in `UploadBill.tsx`). -/
structure MaskResult where
  maskedText : String
  maskedFields : List String
deriving DecidableEq, Repr

/-- `maskSensitiveData` from `UploadBill.tsx` lines 75–111 (identical in
`src/unnamed/part_003` lines 58–94): the four passes in source order, with the
UPI matches filtered by the `.com` / `.in` heuristic and replaced one by one
via first-occurrence string replacement. -/
def maskSensitiveData (rawText : String) : MaskResult :=
  let t0 := rawText.data
  let ifsc := maskIFSC t0
  let t1 := if ifsc.2 then ifsc.1 else t0
  let f1 : List String := if ifsc.2 then ["IFSC Code"] else []
  let acct := maskAcct t1
  let t2 := if acct.2 then acct.1 else t1
  let f2 := if acct.2 then f1 ++ ["Bank Account Number"] else f1
  let ms := upiMatches t2
  let kept := ms.filter (fun u => !hasSub ".com".data u && !hasSub ".in".data u)
  let t3 :=
    if kept.isEmpty then t2
    else kept.foldl (fun txt u => replaceFirstL u "[UPI-MASKED]".data txt) t2
  let f3 := if kept.isEmpty then f2 else f2 ++ ["UPI ID"]
  let t4 := maskBank t3
  { maskedText := String.mk t4, maskedFields := f3 }

/-! ### Duplicate detector (`quickExtractBillNumber` + the duplicate check in
`processPdfFile`, `UploadBill.tsx` lines 58–73 and 247–271) -/

/-- Token of a label regex such as `/Invoice\s*No\.?\s*[:#]?\s*(\w+)/i`:
a case-insensitive literal, an optional `\.?`, a `\s*` run, or `[:#]?`.
These patterns are deterministic: each optional element consumes a character
that no later element can match. -/
inductive LTok where
  | lit (s : String)
  | optDot
  | ws
  | optSep

/-- Case-insensitive prefix test (the `/i` flag, ASCII literals). -/
def ciStarts : List Char → List Char → Bool
  | [], _ => true
  | _ :: _, [] => false
  | p :: ps, c :: cs => (p.toLower == c.toLower) && ciStarts ps cs

/-- Run the label tokens at the head of `cs`; returns the remainder. -/
def runToks : List LTok → List Char → Option (List Char)
  | [], cs => some cs
  | .lit s :: ts, cs =>
    if ciStarts s.data cs then runToks ts (cs.drop s.length) else none
  | .optDot :: ts, cs =>
    match cs with
    | '.' :: r => runToks ts r
    | _ => runToks ts cs
  | .ws :: ts, cs => runToks ts (cs.dropWhile Char.isWhitespace)
  | .optSep :: ts, cs =>
    match cs with
    | ':' :: r => runToks ts r
    | '#' :: r => runToks ts r
    | _ => runToks ts cs

/-- Attempt label tokens followed by the capture `(\w+)` (greedy, nonempty) at
the head of `cs`; returns the captured group. -/
def tryPatAt (toks : List LTok) (cs : List Char) : Option (List Char) :=
  match runToks toks cs with
  | some rest =>
    let grp := rest.takeWhile wordChar
    if grp.isEmpty then none else some grp
  | none => none

/-- Leftmost match of a label pattern in the text (JS non-global `.match`). -/
def scanPat (toks : List LTok) : Nat → List Char → Option (List Char)
  | 0, _ => none
  | fuel + 1, cs =>
    match tryPatAt toks cs with
    | some grp => some grp
    | none =>
      match cs with
      | [] => none
      | _ :: rest => scanPat toks fuel rest

/-- `/Invoice\s*No\.?\s*[:#]?\s*(\w+)/i`. -/
def patInvoiceNo : List LTok := [.lit "Invoice", .ws, .lit "No", .optDot, .ws, .optSep, .ws]

/-- `/Bill\s*No\.?\s*[:#]?\s*(\w+)/i`. -/
def patBillNo : List LTok := [.lit "Bill", .ws, .lit "No", .optDot, .ws, .optSep, .ws]

/-- `/Invoice\s*Number\s*[:#]?\s*(\w+)/i`. -/
def patInvoiceNumber : List LTok := [.lit "Invoice", .ws, .lit "Number", .ws, .optSep, .ws]

/-- `/Inv\.?\s*No\.?\s*[:#]?\s*(\w+)/i`. -/
def patInvNo : List LTok := [.lit "Inv", .optDot, .ws, .lit "No", .optDot, .ws, .optSep, .ws]

/-- `/Receipt\s*No\.?\s*[:#]?\s*(\w+)/i`. -/
def patReceiptNo : List LTok := [.lit "Receipt", .ws, .lit "No", .optDot, .ws, .optSep, .ws]

/-- JS `s.trim()` (on the character list; `\w+` captures never contain
whitespace, so this is the identity there, kept for faithfulness). -/
def jsTrim (s : String) : String :=
  String.mk (((s.data.dropWhile Char.isWhitespace).reverse.dropWhile Char.isWhitespace).reverse)

/-- The `for (const pattern of patterns)` loop of `quickExtractBillNumber`:
first pattern whose leftmost match has a group of length ≥ 2 wins. -/
def quickTry (cs : List Char) : List (List LTok) → Option String
  | [] => none
  | p :: ps =>
    match scanPat p (cs.length + 1) cs with
    | some grp =>
      if 2 ≤ grp.length then some (jsTrim (String.mk grp)) else quickTry cs ps
    | none => quickTry cs ps

/-- `quickExtractBillNumber` from `UploadBill.tsx` lines 58–73. -/
def quickExtractBillNumber (rawText : String) : Option String :=
  quickTry rawText.data
    [patInvoiceNo, patBillNo, patInvoiceNumber, patInvNo, patReceiptNo]

/-- `quickBillNo.replace(/^0+/, '')`. -/
def stripLeadingZeros (s : String) : String :=
  String.mk (s.data.dropWhile (· == '0'))

/-- The duplicate check of `processPdfFile` (`UploadBill.tsx` lines 252–271),
packaged as the spec's `detectDuplicate(rawText, existingBills)` contract:
extract a candidate bill number, normalize it, and return the first existing
bill whose `notes` contain `"Bill #<candidate>"` or `"Bill #<normalized>"`. -/
def detectDuplicate (rawText : String) (existingBills : List Bill) : Option Bill :=
  match quickExtractBillNumber rawText with
  | none => none
  | some quickBillNo =>
    let normalizedBillNo := stripLeadingZeros quickBillNo
    existingBills.find? (fun b =>
      let notes := b.notes.getD ""
      strIncludes notes ("Bill #" ++ quickBillNo) ||
        (decide (0 < normalizedBillNo.length) &&
          strIncludes notes ("Bill #" ++ normalizedBillNo)))

/-! ### Capture workflow (`UploadBill.tsx`): vendor matching, extraction
defaults, save guards -/

/-- JS `s.toLowerCase()` (ASCII case folding; all inputs in scope are ASCII). -/
def jsLower (s : String) : String :=
  String.mk (s.data.map Char.toLower)

/-- JS `a || b` on strings: `a` unless it is empty (falsy). -/
def jsOr (a b : String) : String :=
  if a = "" then b else a

/-- JS `h.split(' ')[0]`: the characters before the first space. -/
def firstToken (s : String) : String :=
  String.mk (s.data.takeWhile (fun c => !(c == ' ')))

/-- The exact-match predicate of `matchVendor`:
`v.name.toLowerCase() === h`. -/
def exactMatchB (h : String) (v : Vendor) : Bool :=
  jsLower v.name == h

/-- The containment predicate of `matchVendor`:
`v.name.toLowerCase().includes(h.split(' ')[0]) || h.includes(v.name.toLowerCase().split(' ')[0])`. -/
def tokenMatchB (h : String) (v : Vendor) : Bool :=
  strIncludes (jsLower v.name) (firstToken h) ||
    strIncludes h (firstToken (jsLower v.name))

/-- `matchVendor` from `UploadBill.tsx` lines 224–234. -/
def matchVendor (hint : String) (vendors : List Vendor) : String :=
  if hint = "" ∨ vendors = [] then ""
  else
    match vendors.find? (exactMatchB (jsTrim (jsLower hint))) with
    | some v => v.id
    | none =>
      jsOr
        (match vendors.find? (tokenMatchB (jsTrim (jsLower hint))) with
         | some v => v.id
         | none => "")
        (jsOr ((vendors.head?.map Vendor.id).getD "") "")

/-- Per-field confidence triple (`{ customerName, amount, date }`). -/
structure ConfTriple where
  customerName : Conf
  amount : Conf
  date : Conf
deriving DecidableEq, Repr

/-- The parsed JSON object returned by the `/api/scan` extraction call
(src/src variant): every field may be absent. -/
structure ExtractionResult where
  customerName : Option String
  amount : Option String
  date : Option String
  billNumber : Option String
  vendorHint : Option String
  confidence : Option ConfTriple
deriving Repr

/-- JS `o.field || d` where the field may be `undefined` or an empty (falsy)
string. -/
def jsOrOpt (o : Option String) (d : String) : String :=
  match o with
  | none => d
  | some s => if s = "" then d else s

/-- The editable draft populated by `applyExtractionResult`. -/
structure Draft where
  extractedDate : String
  extractedCustomer : String
  extractedAmount : String
  extractedBillNo : String
  vendorHint : String
  confidence : ConfTriple
  extractedVendorId : String
deriving DecidableEq, Repr

/-- `applyExtractionResult` from `src/src/app/components/UploadBill.tsx`
lines 236–245, modelled as a pure function producing the draft; `today` stands
for `new Date().toISOString().split('T')[0]`. -/
def applyExtractionResult (today : String) (vendors : List Vendor)
    (result : ExtractionResult) : Draft :=
  { extractedDate := jsOrOpt result.date today,
    extractedCustomer := jsOrOpt result.customerName "",
    extractedAmount := jsOrOpt result.amount "",
    extractedBillNo := jsOrOpt result.billNumber "",
    vendorHint := jsOrOpt result.vendorHint "",
    confidence := result.confidence.getD ⟨Conf.high, Conf.high, Conf.high⟩,
    extractedVendorId := matchVendor (jsOrOpt result.vendorHint "") vendors }

/-- Per-field confidence of the direct-document variant
(`src/app/components/UploadBill.tsx`), with possibly absent entries. -/
structure ParsedConfQuad where
  date : Option Conf
  vendorName : Option Conf
  customerName : Option Conf
  amount : Option Conf
deriving Repr

/-- The parsed JSON of the direct-document variant (`parsed` in
`extractBillWithClaude`): every field may be absent. -/
structure ParsedBillDoc where
  date : Option String
  vendorName : Option String
  customerName : Option String
  amount : Option String
  confidence : Option ParsedConfQuad
deriving Repr

/-- The `ExtractedData` record built by `extractBillWithClaude`. -/
structure ExtractedData where
  date : String
  vendorName : String
  customerName : String
  amount : String
  confDate : Conf
  confVendor : Conf
  confCustomer : Conf
  confAmount : Conf
deriving DecidableEq, Repr

/-- The defaulting step at the end of `extractBillWithClaude`
(`src/app/components/UploadBill.tsx` lines 113–131): each text field falls back
to `''` (the date to today), and each confidence entry of
`parsed.confidence?.<field> || 'low'` falls back to `low`. -/
def mapClaudeResponse (today : String) (parsed : ParsedBillDoc) : ExtractedData :=
  { date := jsOrOpt parsed.date today,
    vendorName := jsOrOpt parsed.vendorName "",
    customerName := jsOrOpt parsed.customerName "",
    amount := jsOrOpt parsed.amount "",
    confDate := (parsed.confidence.bind ParsedConfQuad.date).getD Conf.low,
    confVendor := (parsed.confidence.bind ParsedConfQuad.vendorName).getD Conf.low,
    confCustomer := (parsed.confidence.bind ParsedConfQuad.customerName).getD Conf.low,
    confAmount := (parsed.confidence.bind ParsedConfQuad.amount).getD Conf.low }

/-- Workflow stage (`type Stage` in `UploadBill.tsx`). -/
inductive Stage where
  | upload
  | extracting
  | processing
  | review
  | duplicate
deriving DecidableEq, Repr

/-- JS `[x, y].filter(Boolean).join(sep)` — `joinSep` is the `join`. -/
def joinSep (sep : String) : List String → String
  | [] => ""
  | [x] => x
  | x :: xs => x ++ sep ++ joinSep sep xs

/-- The `notes` expression of `saveBill` (`UploadBill.tsx` lines 344–347):
`[vendorHint ? ... : '', extractedBillNo ? ... : ''].filter(Boolean).join(' · ') || undefined`. -/
def mkNotes (vendorHint extractedBillNo : String) : Option String :=
  let parts :=
    [if vendorHint = "" then "" else "Issuer: " ++ vendorHint,
     if extractedBillNo = "" then "" else "Bill #" ++ extractedBillNo].filter
      (fun s => s != "")
  let joined := joinSep " · " parts
  if joined = "" then none else some joined

/-- The component state that `saveBill` reads and writes. `amount` models the
derived `parseFloat(extractedAmount) || 0`. -/
structure WorkflowState where
  stage : Stage
  bills : List Bill
  extractedDate : String
  extractedVendorId : String
  extractedCustomer : String
  amount : ℚ
  extractedBillNo : String
  vendorHint : String
  confidence : ConfTriple
  activeTab : String
deriving DecidableEq, Repr

/-- The `Bill` that `saveBill` passes to `addBill`, with the fresh id `newId`
(`'b' + Date.now()` in `store.tsx`) already attached. -/
def savedBill (newId : String) (w : WorkflowState) : Bill :=
  { id := newId,
    vendorId := w.extractedVendorId,
    customerName := jsTrim w.extractedCustomer,
    amount := w.amount,
    date := w.extractedDate,
    confidence := w.confidence.amount,
    notes := mkNotes w.vendorHint w.extractedBillNo }

/-- `saveBill` from `UploadBill.tsx` lines 332–363: four early-return guards
(each surfacing an error message and leaving all state untouched), then
`addBill` (which prepends the bill, per `store.tsx`) and the field reset.
The second component is the reported error message, `none` on success. -/
def saveBill (newId : String) (w : WorkflowState) : WorkflowState × Option String :=
  if w.extractedVendorId = "" then (w, some "Please select a vendor")
  else if jsTrim w.extractedCustomer = "" then (w, some "Customer name is required")
  else if w.amount ≤ 0 then (w, some "Bill amount must be greater than 0")
  else if w.extractedDate = "" then (w, some "Please enter the bill date")
  else
    ({ w with
        stage := Stage.upload,
        bills := savedBill newId w :: w.bills,
        extractedDate := "",
        extractedVendorId := "",
        extractedCustomer := "",
        amount := 0,
        extractedBillNo := "",
        vendorHint := "",
        activeTab := "home" }, none)

/-- `notes` as the C6 claim words it: `"Issuer: <hint> · Bill #<number>"` when
both parts are present, one part alone when only one is present, absent when
both are absent. Spec-side definition, to be compared with `mkNotes`. -/
def specNotes (hint number : String) : Option String :=
  if hint = "" then
    if number = "" then none else some ("Bill #" ++ number)
  else
    if number = "" then some ("Issuer: " ++ hint)
    else some ("Issuer: " ++ hint ++ " · Bill #" ++ number)

/-! ### `loadState` (persisted-state hydration), two variants -/

/-- `UserProfile` from `store.tsx`. -/
structure UserProfile where
  name : String
  email : String
  businessName : String
deriving DecidableEq, Repr

/-- Theme (`'light' | 'dark' | 'system'`). -/
inductive Theme where
  | light
  | dark
  | system
deriving DecidableEq, Repr

/-- `AppState` from `src/src/app/store.tsx`. -/
structure AppState where
  isLoggedIn : Bool
  user : UserProfile
  vendors : List Vendor
  bills : List Bill
  monthlyTarget : ℚ
  selectedMonth : String
  theme : Theme
  activeTab : String
  claudeApiKey : String
deriving Repr

/-- `defaultState` from `src/src/app/store.tsx`; `nowMonth` models the
`new Date()`-derived current month string. -/
def defaultState (nowMonth : String) : AppState :=
  { isLoggedIn := false,
    user := ⟨"", "", ""⟩,
    vendors := [],
    bills := [],
    monthlyTarget := 20000,
    selectedMonth := nowMonth,
    theme := Theme.light,
    activeTab := "home",
    claudeApiKey := "" }

/-- A stored JSON document as far as the spread `{...defaultState, ...saved}`
is concerned: any recognized field may be present or absent (this includes
`isLoggedIn` and `activeTab`, which older documents may carry). -/
structure SavedState where
  isLoggedIn : Option Bool
  user : Option UserProfile
  vendors : Option (List Vendor)
  bills : Option (List Bill)
  monthlyTarget : Option ℚ
  selectedMonth : Option String
  theme : Option Theme
  activeTab : Option String
  claudeApiKey : Option String
deriving Repr

/-- `loadState` from `src/src/app/store.tsx` lines 64–81. `none` models both a
missing document and a `JSON.parse` failure (both take the `defaultState`
path). The spread merges field-wise, then `isLoggedIn: false` and
`activeTab: 'home'` override whatever was saved. -/
def loadState (nowMonth : String) (raw : Option SavedState) : AppState :=
  match raw with
  | none => defaultState nowMonth
  | some saved =>
    let d := defaultState nowMonth
    let merged : AppState :=
      { isLoggedIn := saved.isLoggedIn.getD d.isLoggedIn,
        user := saved.user.getD d.user,
        vendors := saved.vendors.getD d.vendors,
        bills := saved.bills.getD d.bills,
        monthlyTarget := saved.monthlyTarget.getD d.monthlyTarget,
        selectedMonth := saved.selectedMonth.getD d.selectedMonth,
        theme := saved.theme.getD d.theme,
        activeTab := saved.activeTab.getD d.activeTab,
        claudeApiKey := saved.claudeApiKey.getD d.claudeApiKey }
    { merged with isLoggedIn := false, activeTab := "home" }

/-- `DriveStatus` from `src/unnamed/part_001`. -/
structure DriveStatus where
  connected : Bool
  userEmail : String
  lastSync : Option String
  rootFolderId : Option String
  billsFolderId : Option String
  syncing : Bool
  syncError : Option String
deriving DecidableEq, Repr

/-- The default `driveStatus` of `part_001`. -/
def defaultDriveStatus : DriveStatus :=
  { connected := false,
    userEmail := "",
    lastSync := none,
    rootFolderId := none,
    billsFolderId := none,
    syncing := false,
    syncError := none }

/-- `AppState` of the Drive variant (`src/unnamed/part_001`). -/
structure DriveAppState where
  isLoggedIn : Bool
  user : UserProfile
  vendors : List Vendor
  bills : List Bill
  monthlyTarget : ℚ
  selectedMonth : String
  theme : Theme
  activeTab : String
  claudeApiKey : String
  driveClientId : String
  driveStatus : DriveStatus
deriving Repr

/-- `defaultState` of the Drive variant (`monthlyTarget` is 0 there). -/
def defaultDriveState (nowMonth : String) : DriveAppState :=
  { isLoggedIn := false,
    user := ⟨"", "", ""⟩,
    vendors := [],
    bills := [],
    monthlyTarget := 0,
    selectedMonth := nowMonth,
    theme := Theme.light,
    activeTab := "home",
    claudeApiKey := "",
    driveClientId := "",
    driveStatus := defaultDriveStatus }

/-- A stored `driveStatus` sub-object: any field may be present or absent
(adversarial documents may even carry `syncing` / `syncError`). -/
structure SavedDriveStatus where
  connected : Option Bool
  userEmail : Option String
  lastSync : Option (Option String)
  rootFolderId : Option (Option String)
  billsFolderId : Option (Option String)
  syncing : Option Bool
  syncError : Option (Option String)
deriving Repr

/-- A stored JSON document of the Drive variant. -/
structure SavedDriveState where
  isLoggedIn : Option Bool
  user : Option UserProfile
  vendors : Option (List Vendor)
  bills : Option (List Bill)
  monthlyTarget : Option ℚ
  selectedMonth : Option String
  theme : Option Theme
  activeTab : Option String
  claudeApiKey : Option String
  driveClientId : Option String
  driveStatus : Option SavedDriveStatus
deriving Repr

/-- `loadState` from `src/unnamed/part_001` lines 93–112: same forced
`isLoggedIn: false` / `activeTab: 'home'`, and the merged `driveStatus`
additionally gets `syncing: false, syncError: null`. -/
def loadStateDrive (nowMonth : String) (raw : Option SavedDriveState) : DriveAppState :=
  match raw with
  | none => defaultDriveState nowMonth
  | some saved =>
    let d := defaultDriveState nowMonth
    let mergedDrive : DriveStatus :=
      match saved.driveStatus with
      | none => d.driveStatus
      | some ds =>
        { connected := ds.connected.getD d.driveStatus.connected,
          userEmail := ds.userEmail.getD d.driveStatus.userEmail,
          lastSync := ds.lastSync.getD d.driveStatus.lastSync,
          rootFolderId := ds.rootFolderId.getD d.driveStatus.rootFolderId,
          billsFolderId := ds.billsFolderId.getD d.driveStatus.billsFolderId,
          syncing := ds.syncing.getD d.driveStatus.syncing,
          syncError := ds.syncError.getD d.driveStatus.syncError }
    { isLoggedIn := false,
      user := saved.user.getD d.user,
      vendors := saved.vendors.getD d.vendors,
      bills := saved.bills.getD d.bills,
      monthlyTarget := saved.monthlyTarget.getD d.monthlyTarget,
      selectedMonth := saved.selectedMonth.getD d.selectedMonth,
      theme := saved.theme.getD d.theme,
      activeTab := "home",
      claudeApiKey := saved.claudeApiKey.getD d.claudeApiKey,
      driveClientId := saved.driveClientId.getD d.driveClientId,
      driveStatus := { mergedDrive with syncing := false, syncError := none } }

/-! ### Concrete instances used by the claim theorems and witnesses -/

/-- The existing bill of the C1 round-trip scenario, with
`notes = "Issuer: X · Bill #INV-042"`. -/
def C1bill : Bill :=
  ⟨"b1", "v1", "Cust", 100, "2024-01-05", some "Issuer: X · Bill #INV-042", Conf.high⟩

/-- Witness vendor list for C4. -/
def C4vendors : List Vendor :=
  [⟨"v1", "Acme", 10, "#D97757", none⟩]

/-- Witness bill for C4: its `vendorId` matches no vendor in `C4vendors`. -/
def C4bill : Bill :=
  ⟨"b9", "ghost", "Cust", 50, "2024-03-02", none, Conf.low⟩

/-- Witness review state for C5: in the review stage, with no vendor selected. -/
def C5draft : WorkflowState :=
  { stage := Stage.review,
    bills := [],
    extractedDate := "2024-03-02",
    extractedVendorId := "",
    extractedCustomer := "Cust",
    amount := 100,
    extractedBillNo := "INV-1",
    vendorHint := "Acme",
    confidence := ⟨Conf.high, Conf.high, Conf.high⟩,
    activeTab := "scan" }

/-- Witness review state for C6: all save preconditions hold. -/
def C6draft : WorkflowState :=
  { stage := Stage.review,
    bills := [],
    extractedDate := "2024-03-02",
    extractedVendorId := "v1",
    extractedCustomer := " Cust ",
    amount := 100,
    extractedBillNo := "INV-9",
    vendorHint := "Acme",
    confidence := ⟨Conf.high, Conf.medium, Conf.low⟩,
    activeTab := "scan" }

/-- C7 counterexample state: one vendor and one bill referencing it. -/
def C7state : LedgerState :=
  ⟨[⟨"v1", "Acme", 10, "#D97757", none⟩],
   [⟨"b1", "v1", "Cust", 250, "2024-02-01", none, Conf.medium⟩]⟩

/-- The bill of `C7state`. -/
def C7bill : Bill :=
  ⟨"b1", "v1", "Cust", 250, "2024-02-01", none, Conf.medium⟩

/-- C8 counterexample response: every field present except `confidence`. -/
def C8result : ExtractionResult :=
  ⟨some "Cust", some "100", some "2024-04-02", some "N1", some "V", none⟩

/-- C8 witness response (src/src variant) in which ONLY the date is missing;
every other field, including the confidence object, is present. -/
def C8dateOnly : ExtractionResult :=
  ⟨some "Cust", some "100", none, some "N1", some "V",
   some ⟨Conf.high, Conf.medium, Conf.low⟩⟩

/-- C8 witness response (direct-document variant) in which only the date text
and the `confidence.date` entry are missing; the confidence object itself and
all other fields are present. -/
def C8pDateOnly : ParsedBillDoc :=
  ⟨none, some "Vend", some "Cust", some "9",
   some ⟨none, some Conf.high, some Conf.medium, some Conf.low⟩⟩

/-- C9 counterexample vendor. -/
def C9vendor : Vendor :=
  ⟨"v1", "Acme", 10, "#D97757", none⟩

/-- C9 witness vendor list. -/
def C9vendors : List Vendor :=
  [⟨"v1", "Acme", 10, "#D97757", none⟩, ⟨"v2", "Beta", 5, "#5C9A6F", none⟩]

/-! ### Helper lemmas -/

/-- String concatenation acts as list concatenation on the character data. -/
theorem strData_append (s t : String) : (s ++ t).data = s.data ++ t.data := by
  cases s
  cases t
  rfl

/-- A concatenation whose left part is a nonempty string is nonempty. -/
theorem append_left_ne_empty (s t : String) (hs : s.data ≠ []) : s ++ t ≠ "" := by
  intro h
  apply hs
  have hd : s.data ++ t.data = ([] : List Char) := by
    rw [← strData_append, h]
  exact (List.append_eq_nil.mp hd).1

/-- The earnings fold is the initial value plus the sum of the per-bill cuts. -/
theorem earnFoldl (vendors : List Vendor) (l : List Bill) (a : ℚ) :
    l.foldl (fun s b => s + billCut vendors b) a = a + (l.map (billCut vendors)).sum := by
  induction l generalizing a with
  | nil => simp
  | cons x xs ih => simp [List.foldl_cons, ih, add_assoc]

/-- The source's `filter(Boolean).join(' · ') || undefined` computes exactly the
four-case notes description of the spec. -/
theorem mkNotes_eq_specNotes (hint number : String) :
    mkNotes hint number = specNotes hint number := by
  have hIss : ("Issuer: " ++ hint) ≠ "" := append_left_ne_empty _ _ (by decide)
  have hNum : ("Bill #" ++ number) ≠ "" := append_left_ne_empty _ _ (by decide)
  have neAux : ∀ a b : List Char, a ≠ [] → a ++ b ≠ [] := by
    intro a b ha hab
    exact ha (List.append_eq_nil.mp hab).1
  by_cases hh : hint = "" <;> by_cases hn : number = "" <;>
    simp [mkNotes, specNotes, joinSep, hh, hn, hIss, hNum, List.filter]
  refine ⟨?_, ?_⟩
  · intro hEq
    have hdata : ((("Issuer: " ++ hint) ++ " · ") ++ ("Bill #" ++ number)).data = [] := by
      rw [hEq]
    rw [strData_append, strData_append, strData_append] at hdata
    exact neAux _ _ (neAux _ _ (neAux _ _ (by decide))) hdata
  · apply String.ext
    simp [strData_append, List.append_assoc]

/-! ### Claim theorems -/

/-- C1, counterexample: the claim states that running duplicate detection on
raw text containing `"Invoice No: INV-043"` against a bill whose notes are
`"Issuer: X · Bill #INV-042"` returns `null`; on the code it does NOT return
`null` (the captured `\w+` token is `"INV"`, and `"Bill #INV"` is a literal
substring of the stored notes). -/
theorem C1_counterexample :
    detectDuplicate "Invoice No: INV-043" [C1bill] ≠ none := by decide

/-- C1, amended: duplicate detection on text containing `"Invoice No: INV-042"`
returns the stored bill, and on `"Invoice No: INV-043"` it ALSO returns that
bill, because the candidate token stops at the hyphen (`quickExtractBillNumber`
yields `"INV"`) and the substring search for `"Bill #INV"` hits the stored
`"Bill #INV-042"`. -/
theorem C1_dup_roundtrip_amended :
    detectDuplicate "Invoice No: INV-042" [C1bill] = some C1bill ∧
    detectDuplicate "Invoice No: INV-043" [C1bill] = some C1bill ∧
    quickExtractBillNumber "Invoice No: INV-043" = some "INV" := by decide

/-- C2, counterexample: the claim states `mask("contact@gmail.com")` is not
redacted and `mask("9998083812@kotak")` reports `"UPI ID"`; on the code the
first IS redacted and the second reports only `"Bank Account Number"`. -/
theorem C2_counterexample :
    (maskSensitiveData "contact@gmail.com").maskedText ≠ "contact@gmail.com" ∧
    "UPI ID" ∉ (maskSensitiveData "9998083812@kotak").maskedFields := by decide

/-- C2, amended: `mask("contact@gmail.com")` IS redacted to
`"[UPI-MASKED].com"` reporting `"UPI ID"` (the UPI regex match is
`"contact@gmail"`, which does not contain `".com"`, so the heuristic exclusion
does not fire), and `mask("9998083812@kotak")` is redacted by the
bank-account-number rule (a 10-digit run) to `"[ACCT-MASKED]@kotak"`,
reporting `"Bank Account Number"` rather than `"UPI ID"`. -/
theorem C2_upi_masking_amended :
    maskSensitiveData "contact@gmail.com" =
      ⟨"[UPI-MASKED].com", ["UPI ID"]⟩ ∧
    maskSensitiveData "9998083812@kotak" =
      ⟨"[ACCT-MASKED]@kotak", ["Bank Account Number"]⟩ := by decide

/-- C3 (code bug): masking is NOT idempotent. On `"a.comx@y x@y"` the UPI
regex matches `"a.comx@y"` (excluded by the `.com` heuristic) and `"x@y"`
(kept), but the JS string-`replace` rewrites the FIRST occurrence of `"x@y"`,
which sits inside the excluded email; a second pass then masks the real
occurrence, so `mask(mask(x).maskedText).maskedText ≠ mask(x).maskedText`. -/
theorem C3_mask_not_idempotent :
    (maskSensitiveData "a.comx@y x@y").maskedText = "a.com[UPI-MASKED] x@y" ∧
    (maskSensitiveData ((maskSensitiveData "a.comx@y x@y").maskedText)).maskedText =
      "a.com[UPI-MASKED] [UPI-MASKED]" ∧
    (maskSensitiveData ((maskSensitiveData "a.comx@y x@y").maskedText)).maskedText ≠
      (maskSensitiveData "a.comx@y x@y").maskedText := by decide

/-- C4: a bill whose `vendorId` matches no vendor contributes exactly 0 to
`getEarningsForMonth` (removing it leaves the total unchanged), the query is a
total function (it never throws), and the bill still appears in
`getBillsForMonth` whenever its date string starts with the month prefix. -/
theorem C4_dangling_vendor (vendors : List Vendor) (month : String)
    (l1 l2 : List Bill) (b : Bill) (hno : ∀ v ∈ vendors, v.id ≠ b.vendorId) :
    getEarningsForMonth (l1 ++ b :: l2) vendors month =
      getEarningsForMonth (l1 ++ l2) vendors month ∧
    (jsStartsWith b.date month = true → b ∈ getBillsForMonth (l1 ++ b :: l2) month) := by
  have hfind : vendors.find? (fun v => v.id == b.vendorId) = none := by
    rw [List.find?_eq_none]
    intro v hv
    simp only [beq_iff_eq]
    exact hno v hv
  have hcut : billCut vendors b = 0 := by
    simp [billCut, hfind]
  constructor
  · simp only [getEarningsForMonth, getBillsForMonth, List.filter_append,
      List.filter_cons]
    by_cases hb : jsStartsWith b.date month = true
    · simp [hb, earnFoldl, hcut]
    · simp [hb]
  · intro hd
    simp [getBillsForMonth, List.mem_filter, hd]

/-- C4 witness: a concrete dangling bill in a concrete ledger. -/
theorem C4_witness :
    (∀ v ∈ C4vendors, v.id ≠ C4bill.vendorId) ∧
    (getEarningsForMonth ([] ++ C4bill :: []) C4vendors "2024-03" =
        getEarningsForMonth ([] ++ []) C4vendors "2024-03" ∧
      (jsStartsWith C4bill.date "2024-03" = true →
        C4bill ∈ getBillsForMonth ([] ++ C4bill :: []) "2024-03")) :=
  ⟨by decide, C4_dangling_vendor C4vendors "2024-03" [] [] C4bill (by decide)⟩

/-- C5: each save precondition (missing vendor, blank customer after trimming,
non-positive amount, empty date) independently blocks the save: the component
state — in particular the bills list and the review stage — is unchanged, and
an error message is reported instead of calling `addBill`. -/
theorem C5_save_guards (newId : String) (w : WorkflowState)
    (hstage : w.stage = Stage.review)
    (hbad : w.extractedVendorId = "" ∨ jsTrim w.extractedCustomer = "" ∨
      w.amount ≤ 0 ∨ w.extractedDate = "") :
    (saveBill newId w).1 = w ∧
    (saveBill newId w).1.bills = w.bills ∧
    (saveBill newId w).1.stage = Stage.review ∧
    (saveBill newId w).2.isSome = true := by
  unfold saveBill
  split_ifs with h1 h2 h3 h4
  · exact ⟨rfl, rfl, hstage, rfl⟩
  · exact ⟨rfl, rfl, hstage, rfl⟩
  · exact ⟨rfl, rfl, hstage, rfl⟩
  · exact ⟨rfl, rfl, hstage, rfl⟩
  · rcases hbad with h | h | h | h
    · exact absurd h h1
    · exact absurd h h2
    · exact absurd h h3
    · exact absurd h h4

/-- C5 witness: a concrete review draft with no vendor selected. -/
theorem C5_witness :
    C5draft.stage = Stage.review ∧
    (C5draft.extractedVendorId = "" ∨ jsTrim C5draft.extractedCustomer = "" ∨
      C5draft.amount ≤ 0 ∨ C5draft.extractedDate = "") ∧
    ((saveBill "b100" C5draft).1 = C5draft ∧
      (saveBill "b100" C5draft).1.bills = C5draft.bills ∧
      (saveBill "b100" C5draft).1.stage = Stage.review ∧
      (saveBill "b100" C5draft).2.isSome = true) :=
  ⟨rfl, Or.inl rfl, C5_save_guards "b100" C5draft rfl (Or.inl rfl)⟩

/-- C6: when every save precondition holds, the persisted bill is prepended to
the ledger, its `confidence` is the draft's `confidence.amount`, and its
`notes` are exactly the spec's four-case description (`specNotes`). -/
theorem C6_saved_bill (newId : String) (w : WorkflowState)
    (h1 : w.extractedVendorId ≠ "") (h2 : jsTrim w.extractedCustomer ≠ "")
    (h3 : 0 < w.amount) (h4 : w.extractedDate ≠ "") :
    (saveBill newId w).1.bills = savedBill newId w :: w.bills ∧
    (savedBill newId w).confidence = w.confidence.amount ∧
    (savedBill newId w).notes = specNotes w.vendorHint w.extractedBillNo := by
  have h3' : ¬ w.amount ≤ 0 := not_le.mpr h3
  refine ⟨?_, rfl, mkNotes_eq_specNotes _ _⟩
  simp [saveBill, h1, h2, h3', h4]

/-- C6 witness: a concrete accepted draft with both a vendor hint and a bill
number present. -/
theorem C6_witness :
    C6draft.extractedVendorId ≠ "" ∧ jsTrim C6draft.extractedCustomer ≠ "" ∧
    0 < C6draft.amount ∧ C6draft.extractedDate ≠ "" ∧
    ((saveBill "b200" C6draft).1.bills = savedBill "b200" C6draft :: C6draft.bills ∧
      (savedBill "b200" C6draft).confidence = C6draft.confidence.amount ∧
      (savedBill "b200" C6draft).notes =
        specNotes C6draft.vendorHint C6draft.extractedBillNo) :=
  ⟨by decide, by decide, by decide, by decide,
    C6_saved_bill "b200" C6draft (by decide) (by decide) (by decide) (by decide)⟩

/-- C7, counterexample: in `src/src/app/store.tsx`, deleting vendor `"v1"` from
a ledger holding one bill that references it does NOT leave every bill in
place — the referencing bill is removed too. -/
theorem C7_counterexample :
    (deleteVendorCascade "v1" C7state).bills ≠ C7state.bills ∧
    (deleteVendorCascade "v1" C7state).bills = [] := by decide

/-- C7, amended: the `src/src/app/store.tsx` variant cascade-deletes — a bill
referencing the deleted vendor disappears from `bills` — while the
`part_000`/`part_001` variants remove only the vendor and leave `bills`
untouched; in both variants exactly the vendors with the given id are removed
from the vendors list. -/
theorem C7_delete_vendor_amended (id : String) (s : LedgerState) (b : Bill)
    (_hb : b ∈ s.bills) (hid : b.vendorId = id) :
    b ∉ (deleteVendorCascade id s).bills ∧
    (deleteVendorKeepBills id s).bills = s.bills ∧
    (∀ v ∈ (deleteVendorCascade id s).vendors, v.id ≠ id) ∧
    (∀ v ∈ (deleteVendorKeepBills id s).vendors, v.id ≠ id) ∧
    (∀ v ∈ s.vendors, v.id ≠ id → v ∈ (deleteVendorKeepBills id s).vendors) := by
  refine ⟨?_, rfl, ?_, ?_, ?_⟩
  · simp [deleteVendorCascade, List.mem_filter, hid]
  · intro v hv
    simp [deleteVendorCascade, List.mem_filter] at hv
    exact hv.2
  · intro v hv
    simp [deleteVendorKeepBills, List.mem_filter] at hv
    exact hv.2
  · intro v hv hvid
    simp [deleteVendorKeepBills, List.mem_filter, hv, hvid]

/-- C7 witness: the concrete one-vendor-one-bill ledger. -/
theorem C7_witness :
    C7bill ∈ C7state.bills ∧ C7bill.vendorId = "v1" ∧
    (C7bill ∉ (deleteVendorCascade "v1" C7state).bills ∧
      (deleteVendorKeepBills "v1" C7state).bills = C7state.bills ∧
      (∀ v ∈ (deleteVendorCascade "v1" C7state).vendors, v.id ≠ "v1") ∧
      (∀ v ∈ (deleteVendorKeepBills "v1" C7state).vendors, v.id ≠ "v1") ∧
      (∀ v ∈ C7state.vendors, v.id ≠ "v1" → v ∈ (deleteVendorKeepBills "v1" C7state).vendors)) :=
  ⟨by decide, by decide, C7_delete_vendor_amended "v1" C7state C7bill (by decide) (by decide)⟩

/-- C8, counterexample: the claim states that missing confidence entries
default to `low`; in the `src/src` variant (`applyExtractionResult`) a response
that omits `confidence` produces the all-`high` triple instead. -/
theorem C8_counterexample :
    (applyExtractionResult "2024-05-01" [] C8result).confidence =
      ⟨Conf.high, Conf.high, Conf.high⟩ ∧
    (applyExtractionResult "2024-05-01" [] C8result).confidence ≠
      ⟨Conf.low, Conf.low, Conf.low⟩ := by decide

/-- C8, amended: for every response and each INDIVIDUALLY missing field —
whatever the other fields hold — the corresponding draft field gets its
default instead of the call failing: missing text fields default to the empty
string and a missing date to the current date in both variants; a missing
per-field confidence entry (absent object or absent entry inside a present
object) defaults to `low` in the direct-document variant (`extractBillWithClaude`
in `src/app`); but in the `src/src` variant a missing `confidence` object
defaults to all-`high`, not `low`. -/
theorem C8_missing_field_defaults (today : String) (vendors : List Vendor)
    (r : ExtractionResult) (p : ParsedBillDoc) :
    (r.date = none → (applyExtractionResult today vendors r).extractedDate = today) ∧
    (r.customerName = none →
      (applyExtractionResult today vendors r).extractedCustomer = "") ∧
    (r.amount = none → (applyExtractionResult today vendors r).extractedAmount = "") ∧
    (r.billNumber = none →
      (applyExtractionResult today vendors r).extractedBillNo = "") ∧
    (r.vendorHint = none → (applyExtractionResult today vendors r).vendorHint = "") ∧
    (r.confidence = none →
      (applyExtractionResult today vendors r).confidence =
        ⟨Conf.high, Conf.high, Conf.high⟩) ∧
    (p.date = none → (mapClaudeResponse today p).date = today) ∧
    (p.vendorName = none → (mapClaudeResponse today p).vendorName = "") ∧
    (p.customerName = none → (mapClaudeResponse today p).customerName = "") ∧
    (p.amount = none → (mapClaudeResponse today p).amount = "") ∧
    ((∀ q, p.confidence = some q → q.date = none) →
      (mapClaudeResponse today p).confDate = Conf.low) ∧
    ((∀ q, p.confidence = some q → q.vendorName = none) →
      (mapClaudeResponse today p).confVendor = Conf.low) ∧
    ((∀ q, p.confidence = some q → q.customerName = none) →
      (mapClaudeResponse today p).confCustomer = Conf.low) ∧
    ((∀ q, p.confidence = some q → q.amount = none) →
      (mapClaudeResponse today p).confAmount = Conf.low) := by
  refine ⟨?_, ?_, ?_, ?_, ?_, ?_, ?_, ?_, ?_, ?_, ?_, ?_, ?_, ?_⟩
  · intro h
    simp [applyExtractionResult, jsOrOpt, h]
  · intro h
    simp [applyExtractionResult, jsOrOpt, h]
  · intro h
    simp [applyExtractionResult, jsOrOpt, h]
  · intro h
    simp [applyExtractionResult, jsOrOpt, h]
  · intro h
    simp [applyExtractionResult, jsOrOpt, h]
  · intro h
    simp [applyExtractionResult, h]
  · intro h
    simp [mapClaudeResponse, jsOrOpt, h]
  · intro h
    simp [mapClaudeResponse, jsOrOpt, h]
  · intro h
    simp [mapClaudeResponse, jsOrOpt, h]
  · intro h
    simp [mapClaudeResponse, jsOrOpt, h]
  · intro h
    cases hc : p.confidence with
    | none => simp [mapClaudeResponse, hc]
    | some q => simp [mapClaudeResponse, hc, h q hc]
  · intro h
    cases hc : p.confidence with
    | none => simp [mapClaudeResponse, hc]
    | some q => simp [mapClaudeResponse, hc, h q hc]
  · intro h
    cases hc : p.confidence with
    | none => simp [mapClaudeResponse, hc]
    | some q => simp [mapClaudeResponse, hc, h q hc]
  · intro h
    cases hc : p.confidence with
    | none => simp [mapClaudeResponse, hc]
    | some q => simp [mapClaudeResponse, hc, h q hc]

/-- C8 witness: a response in which ONLY the date (and, in the direct-document
variant, only the `confidence.date` entry) is missing while every other field
is present: the missing fields get their defaults, and the present fields are
untouched. -/
theorem C8_witness :
    C8dateOnly.date = none ∧
    C8pDateOnly.date = none ∧
    (∀ q, C8pDateOnly.confidence = some q → q.date = none) ∧
    ((applyExtractionResult "2024-05-01" [] C8dateOnly).extractedDate = "2024-05-01" ∧
      (mapClaudeResponse "2024-05-01" C8pDateOnly).date = "2024-05-01" ∧
      (mapClaudeResponse "2024-05-01" C8pDateOnly).confDate = Conf.low) ∧
    (applyExtractionResult "2024-05-01" [] C8dateOnly).extractedCustomer = "Cust" ∧
    (applyExtractionResult "2024-05-01" [] C8dateOnly).confidence =
      ⟨Conf.high, Conf.medium, Conf.low⟩ ∧
    (mapClaudeResponse "2024-05-01" C8pDateOnly).confVendor = Conf.high := by
  refine ⟨rfl, rfl, ?_, ⟨?_, ?_, ?_⟩, by decide, by decide, by decide⟩
  · intro q hq
    cases hq
    rfl
  · exact (C8_missing_field_defaults "2024-05-01" [] C8dateOnly C8pDateOnly).1 rfl
  · exact
      (C8_missing_field_defaults "2024-05-01" [] C8dateOnly
        C8pDateOnly).2.2.2.2.2.2.1 rfl
  · exact
      (C8_missing_field_defaults "2024-05-01" [] C8dateOnly
        C8pDateOnly).2.2.2.2.2.2.2.2.2.2.1 (fun q hq => by cases hq; rfl)

/-- C9, counterexample: the claim quantifies over every `vendorHint`; for the
empty hint with a nonempty vendor list the claim's cascade (the containment
check against the empty first token succeeds for every vendor) would select
the first vendor, but `matchVendor` returns the empty id — no selection. -/
theorem C9_counterexample :
    tokenMatchB (jsTrim (jsLower "")) C9vendor = true ∧
    matchVendor "" [C9vendor] = "" ∧
    matchVendor "" [C9vendor] ≠ C9vendor.id := by decide

/-- C9, amended: for a NONEMPTY hint (and vendors with nonempty ids), the
workflow selects the first vendor matching the lowercased, trimmed hint
exactly; otherwise the first vendor passing the containment check; otherwise
the first configured vendor. An empty hint or an empty vendor list yields no
selection (empty id). -/
theorem C9_match_vendor_amended (hint : String) (vendors : List Vendor)
    (hids : ∀ v ∈ vendors, v.id ≠ "") :
    (hint = "" ∨ vendors = [] → matchVendor hint vendors = "") ∧
    (hint ≠ "" → vendors ≠ [] →
      (∀ v, vendors.find? (exactMatchB (jsTrim (jsLower hint))) = some v →
        matchVendor hint vendors = v.id) ∧
      (vendors.find? (exactMatchB (jsTrim (jsLower hint))) = none →
        ∀ v, vendors.find? (tokenMatchB (jsTrim (jsLower hint))) = some v →
          matchVendor hint vendors = v.id) ∧
      (vendors.find? (exactMatchB (jsTrim (jsLower hint))) = none →
        vendors.find? (tokenMatchB (jsTrim (jsLower hint))) = none →
        ∃ v0 ts, vendors = v0 :: ts ∧ matchVendor hint vendors = v0.id)) := by
  constructor
  · intro hc
    unfold matchVendor
    rw [if_pos hc]
  · intro hh hv
    have hcond : ¬(hint = "" ∨ vendors = []) := by
      push_neg
      exact ⟨hh, hv⟩
    refine ⟨?_, ?_, ?_⟩
    · intro v hfv
      unfold matchVendor
      rw [if_neg hcond, hfv]
    · intro hn v hfv
      unfold matchVendor
      rw [if_neg hcond, hn, hfv]
      have hvne : v.id ≠ "" := hids v (List.mem_of_find?_eq_some hfv)
      simp [jsOr, hvne]
    · intro hn1 hn2
      obtain ⟨v0, ts, rfl⟩ := List.exists_cons_of_ne_nil hv
      refine ⟨v0, ts, rfl, ?_⟩
      unfold matchVendor
      rw [if_neg hcond, hn1, hn2]
      have hvne : v0.id ≠ "" := hids v0 (by simp)
      simp [jsOr, hvne]

/-- C9 witness: a concrete hint and vendor list with an exact match. -/
theorem C9_witness :
    (∀ v ∈ C9vendors, v.id ≠ "") ∧
    (("acme" = "" ∨ C9vendors = [] → matchVendor "acme" C9vendors = "") ∧
      ("acme" ≠ "" → C9vendors ≠ [] →
        (∀ v, C9vendors.find? (exactMatchB (jsTrim (jsLower "acme"))) = some v →
          matchVendor "acme" C9vendors = v.id) ∧
        (C9vendors.find? (exactMatchB (jsTrim (jsLower "acme"))) = none →
          ∀ v, C9vendors.find? (tokenMatchB (jsTrim (jsLower "acme"))) = some v →
            matchVendor "acme" C9vendors = v.id) ∧
        (C9vendors.find? (exactMatchB (jsTrim (jsLower "acme"))) = none →
          C9vendors.find? (tokenMatchB (jsTrim (jsLower "acme"))) = none →
          ∃ v0 ts, C9vendors = v0 :: ts ∧ matchVendor "acme" C9vendors = v0.id))) :=
  ⟨by decide, C9_match_vendor_amended "acme" C9vendors (by decide)⟩

/-- C10: reloading persisted state never restores a logged-in session or a
non-home tab — for every stored document (including ones that saved
`isLoggedIn: true` or another tab), both `loadState` variants force
`isLoggedIn = false` and `activeTab = "home"`, and the Drive variant
additionally forces `driveStatus.syncing = false` and
`driveStatus.syncError = null`. -/
theorem C10_reload_forces_logged_out (nowMonth : String) (raw : Option SavedState)
    (rawD : Option SavedDriveState) :
    (loadState nowMonth raw).isLoggedIn = false ∧
    (loadState nowMonth raw).activeTab = "home" ∧
    (loadStateDrive nowMonth rawD).isLoggedIn = false ∧
    (loadStateDrive nowMonth rawD).activeTab = "home" ∧
    (loadStateDrive nowMonth rawD).driveStatus.syncing = false ∧
    (loadStateDrive nowMonth rawD).driveStatus.syncError = none := by
  cases raw <;> cases rawD <;> exact ⟨rfl, rfl, rfl, rfl, rfl, rfl⟩

end BillerPRO
